import Mathlib

/-!
Verification of the Smart-Window-Control relay server (src/server.js).

The server keeps one mutable `systemState` record, classifies each
WebSocket connection by a `ROLE:` message, applies device (ESP32) JSON
reports to the state, broadcasts snapshots to browser clients, forwards
browser commands to the device, and guards HTTP routes with issued JWTs
whose hashes are recorded in a `user_tokens` ledger.

The embedding below translates the relevant server.js fragments into
executable Lean definitions.  JavaScript values that flow untyped through
the handler (report fields) are modelled by `JsVal`; the outcome of
`JSON.parse(msg)` is passed to the handler as an `Option Report` argument
(`none` when the parse throws), since the handler itself only consumes the
parsed object.  External side effects (Firebase writes, Telegram push,
WebSocket sends) are recorded as an `Effect` list in the order the code
issues them.
-/

/-- Untyped JavaScript value, as far as the handler can observe one:
numbers are modelled by `Int` (no claim here depends on fractional
formatting), plus strings, booleans, `null`, and `undefined` for an
absent object property. -/
inductive JsVal where
  | num (n : Int)
  | str (s : String)
  | bool (b : Bool)
  | null
  | undefined
deriving DecidableEq, Repr

/-- JavaScript truthiness test used by `data.mode || "AUTO"`
(server.js line 466 / 1268). -/
def jsFalsy : JsVal → Bool
  | .num n => n = 0
  | .str s => s = ""
  | .bool b => !b
  | .null => true
  | .undefined => true

/-- JavaScript string coercion, as used by template literals in the
Telegram alert message. -/
def jsToString : JsVal → String
  | .num n => toString n
  | .str s => s
  | .bool true => "true"
  | .bool false => "false"
  | .null => "null"
  | .undefined => "undefined"

/-- The relevant properties of the object produced by `JSON.parse(msg)`
in the ESP32 branch (server.js lines 461-467).  A property the parsed
value does not carry is `JsVal.undefined`; `timestamp` models any
client-supplied timestamp-like field, which the code never reads. -/
structure Report where
  temperature : JsVal
  light : JsVal
  window : JsVal
  mode : JsVal
  timestamp : JsVal
deriving DecidableEq, Repr

/-- The global `systemState` record (server.js lines 356-362).
`timestamp` is `none` for the initial `null` and `some iso` once a report
has been accepted. -/
structure SystemState where
  temperature : JsVal
  light : JsVal
  window : JsVal
  mode : JsVal
  timestamp : Option String
deriving DecidableEq, Repr

/-- Initial value of `systemState` (server.js lines 356-362). -/
def initialSystemState : SystemState :=
  { temperature := .num 0
    light := .num 0
    window := .str "CLOSE"
    mode := .str "AUTO"
    timestamp := none }

/-- The mutable server globals touched by the relay:
`systemState` and `previousWindowState` (server.js lines 356-363). -/
structure ServerState where
  systemState : SystemState
  previousWindowState : JsVal
deriving DecidableEq, Repr

/-- Initial globals: `previousWindowState = "CLOSE"` (line 363). -/
def initialServerState : ServerState :=
  { systemState := initialSystemState
    previousWindowState := .str "CLOSE" }

/-- Per-connection fields set on `wss.on("connection")`:
`ws.role = "UNKNOWN"; ws.userId = null` (server.js lines 432-433).
`userId = none` models the initial `null`. -/
structure Conn where
  role : String
  userId : Option String
deriving DecidableEq, Repr

/-- Fresh connection state (server.js lines 432-433). -/
def initialConn : Conn := { role := "UNKNOWN", userId := none }

/-- Structural prefix test on character lists. -/
def leadsChars : List Char → List Char → Bool
  | [], _ => true
  | _ :: _, [] => false
  | p :: ps, c :: cs => p = c && leadsChars ps cs

/-- JavaScript `s.startsWith(pre)`. -/
def jsStartsWith (s pre : String) : Bool := leadsChars pre.toList s.toList

/-- Characters before the first occurrence of `sep`. -/
def takeUntilSep (sep : Char) : List Char → List Char
  | [] => []
  | c :: cs => if c = sep then [] else c :: takeUntilSep sep cs

/-- Characters after the first occurrence of `sep` (everything, when
`sep` does not occur). -/
def dropThroughSep (sep : Char) : List Char → List Char
  | [] => []
  | c :: cs => if c = sep then cs else dropThroughSep sep cs

/-- JavaScript `s.split(sep)[1]` for a one-character separator:
`none` models `undefined` (fewer than two split pieces, i.e. `sep`
absent); otherwise the text between the first and second occurrence. -/
def splitSecond (sep : Char) (s : String) : Option String :=
  if s.toList.contains sep then
    some (String.mk (takeUntilSep sep (dropThroughSep sep s.toList)))
  else
    none

/-- External side effects the message handler issues, in program order:
`logToFirebase category`, `saveToFirebase path`, `broadcastToBrowser`
with the sent snapshot, `sendToESP32 command`, and `sendTelegram text`. -/
inductive Effect where
  | fbLog (category : String)
  | fbSave (path : String)
  | broadcast (snapshot : SystemState)
  | toESP32 (command : String)
  | telegram (text : String)
deriving DecidableEq, Repr

/-- The Telegram alert text built at server.js lines 507-511. -/
def alertMessage (st : SystemState) : String :=
  "🚨 Smart Window Alert 🚨\n" ++
  "🪟 Window: " ++ jsToString st.window ++ "\n" ++
  "🌡 Temperature: " ++ jsToString st.temperature ++ "°C\n" ++
  "💡 Light: " ++ jsToString st.light ++ " lux"

/-- ESP32 branch of the message handler (server.js lines 459-519).
`parsed = none` models `JSON.parse(msg)` throwing: the `catch` swallows
the error before any assignment has happened, so nothing changes and no
effect is issued.  On a successful parse every `systemState` field is
assigned from the report (`mode` defaulting to `"AUTO"` when falsy,
`timestamp` re-derived from the server clock `now`), Firebase is written,
the snapshot is broadcast, and the Telegram alert fires iff the new
`window` differs from `previousWindowState`, which is then updated. -/
def handleEsp32 (srv : ServerState) (parsed : Option Report) (now : String) :
    ServerState × List Effect :=
  match parsed with
  | none => (srv, [])
  | some data =>
    let st : SystemState :=
      { temperature := data.temperature
        light := data.light
        window := data.window
        mode := if jsFalsy data.mode then JsVal.str "AUTO" else data.mode
        timestamp := some now }
    let effs : List Effect :=
      [Effect.fbLog "sensor_data", Effect.fbSave "current_state", Effect.broadcast st]
    if st.window ≠ srv.previousWindowState then
      ({ systemState := st, previousWindowState := st.window },
        effs ++ [Effect.telegram (alertMessage st)])
    else
      ({ systemState := st, previousWindowState := srv.previousWindowState }, effs)

/-- BROWSER branch of the message handler (server.js lines 524-556).
A message equal to one of `"OPEN"`, `"CLOSE"`, `"AUTO"` overwrites
`systemState.window` with the message text, is sent to every ESP32
client, and is logged to Firebase; anything else is ignored. -/
def handleBrowser (srv : ServerState) (msg : String) : ServerState × List Effect :=
  if msg = "OPEN" ∨ msg = "CLOSE" ∨ msg = "AUTO" then
    ({ srv with systemState := { srv.systemState with window := JsVal.str msg } },
      [Effect.toESP32 msg, Effect.fbLog "commands"])
  else
    (srv, [])

/-- One step of `ws.on("message")` (server.js lines 435-557).
`msg` is `message.toString()`; `parsed` is the outcome of
`JSON.parse(msg)` where the ESP32 branch would compute it; `now` is the
server clock reading `new Date().toISOString()`.  A `ROLE:` message
unconditionally overwrites `ws.role` with `msg.split(":")[1]` and
returns; a `USER:` message likewise overwrites `ws.userId`; otherwise
the ESP32 and BROWSER branches run in sequence (at most one applies,
since `ws.role` is a single string). -/
def handleMessage (conn : Conn) (srv : ServerState) (msg : String)
    (parsed : Option Report) (now : String) : Conn × ServerState × List Effect :=
  if jsStartsWith msg "ROLE:" then
    ({ conn with role := (splitSecond ':' msg).getD "" }, srv, [])
  else if jsStartsWith msg "USER:" then
    ({ conn with userId := some ((splitSecond ':' msg).getD "") }, srv, [])
  else
    let r1 := if conn.role = "ESP32" then handleEsp32 srv parsed now else (srv, [])
    let r2 := if conn.role = "BROWSER" then handleBrowser r1.1 msg else (r1.1, [])
    (conn, r2.1, r1.2 ++ r2.2)

/-- An inbound WebSocket frame together with the parse outcome the ESP32
branch would observe and the server clock at handling time. -/
structure Frame where
  msg : String
  parsed : Option Report
  now : String

/-- Sequential handling of a list of frames on one connection,
accumulating effects in order (the `ws` library delivers the frames of
one connection to the handler sequentially). -/
def handleMessages (conn : Conn) (srv : ServerState) :
    List Frame → Conn × ServerState × List Effect
  | [] => (conn, srv, [])
  | f :: rest =>
    let r1 := handleMessage conn srv f.msg f.parsed f.now
    let r2 := handleMessages r1.1 r1.2.1 rest
    (r2.1, r2.2.1, r1.2.2 ++ r2.2.2)

/-- Number of Telegram notifications in an effect list. -/
def countTelegrams (effs : List Effect) : Nat :=
  (effs.filter fun e => match e with | .telegram _ => true | _ => false).length

/-- A connected WebSocket client as `broadcastToBrowser` / `sendToESP32`
see it: its `role` tag and whether `readyState === WebSocket.OPEN`. -/
structure Client where
  role : String
  readyStateOpen : Bool
deriving DecidableEq, Repr

/-- `sendToESP32` (server.js lines 580-586): the command text is sent to
every client whose transport is open and whose role is `"ESP32"`;
the result lists each delivery as (client, sent text). -/
def sendToESP32 (clients : List Client) (command : String) : List (Client × String) :=
  clients.filterMap fun c =>
    if c.readyStateOpen && c.role == "ESP32" then some (c, command) else none

/-- All device deliveries produced by resolving the `toESP32` effects of
a handler run against the current client set. -/
def espDeliveries (clients : List Client) (effs : List Effect) : List (Client × String) :=
  effs.flatMap fun e =>
    match e with
    | .toESP32 cmd => sendToESP32 clients cmd
    | _ => []

/-!
Token ledger and HTTP auth middleware (second server.js copy,
lines 730-777, 838-850, 891-906, 964-974).
-/

/-- A row of the `user_tokens` table as `authenticateToken` reads it:
`SELECT id, revoked, expires_at FROM user_tokens WHERE token_hash = $1`.
Times are epoch milliseconds; `expiresAt = none` models a NULL
`expires_at`. -/
structure TokenRow where
  id : Nat
  revoked : Bool
  expiresAt : Option Int
deriving DecidableEq, Repr

/-- The token ledger: `token_hash` keys paired with their rows. -/
def Ledger := List (String × TokenRow)

/-- `... WHERE token_hash = $1 LIMIT 1`: the first row whose hash
matches, if any. -/
def findTokenRow (ledger : Ledger) (hash : String) : Option TokenRow :=
  (ledger.find? fun p => p.1 == hash).map (·.2)

/-- Outcome of the `authenticateToken` middleware: either an HTTP
rejection with its status code and error string, or acceptance
(`next()` is called). -/
inductive AuthResult where
  | reject (status : Nat) (error : String)
  | accept
deriving DecidableEq, Repr

/-- `const token = authHeader && authHeader.split(" ")[1]` followed by
the `if (!token)` guard (server.js lines 731-736): the second
space-separated word of the Authorization header, treating a missing
header, a missing second word, and an empty second word (all falsy in
JavaScript) as no token. -/
def extractBearer : Option String → Option String
  | none => none
  | some h =>
    match splitSecond ' ' h with
    | none => none
    | some t => if t = "" then none else some t

/-- The body of `authenticateToken` after token extraction (server.js
lines 738-776), over an explicit environment: `jwtVerifyOk` is whether
`jwt.verify(token, JWT_SECRET, ...)` succeeds (signature and JWT-level
expiry), `sha256hex` the hash used for the ledger key, `dbOk` whether
the ledger query itself succeeds, and `now` the current time.
Order of checks in the source: invalid signature → 403 Invalid token;
no ledger row → 401 Token not recognized; `row.revoked` → 401 Token
revoked; `row.expires_at && new Date(row.expires_at) < new Date()` →
401 Token expired; otherwise `last_used_at` is updated best-effort and
the request proceeds. -/
def checkToken (token : String) (jwtVerifyOk : Bool) (sha256hex : String → String)
    (dbOk : Bool) (ledger : Ledger) (now : Int) : AuthResult :=
  if !jwtVerifyOk then .reject 403 "Invalid token"
  else if !dbOk then .reject 500 "Internal server error"
  else
    match findTokenRow ledger (sha256hex token) with
    | none => .reject 401 "Token not recognized"
    | some row =>
      if row.revoked then .reject 401 "Token revoked"
      else
        match row.expiresAt with
        | some t => if t < now then .reject 401 "Token expired" else .accept
        | none => .accept

/-- `authenticateToken` (server.js lines 730-777): header extraction,
then `checkToken`. -/
def authenticateToken (authHeader : Option String) (jwtVerifyOk : Bool)
    (sha256hex : String → String) (dbOk : Bool) (ledger : Ledger) (now : Int) :
    AuthResult :=
  match extractBearer authHeader with
  | none => .reject 401 "Access token required"
  | some token => checkToken token jwtVerifyOk sha256hex dbOk ledger now

/-- The INSERT a login/register/admin-login route attempts into
`user_tokens`. -/
structure LedgerInsert where
  userId : Option Nat
  tokenHash : String
  tokenType : String
  expiresAt : Int
deriving DecidableEq, Repr

/-- HTTP response of a token-issuing route, as far as the claims need
it: the status code, the `token` field of the JSON body (if any), and
whether a persistence-failure warning was logged. -/
structure IssueResponse where
  status : Nat
  token : Option String
  warned : Bool
deriving DecidableEq, Repr

/-- Token-persistence tail of `POST /api/register` (server.js lines
838-850): the hash INSERT runs inside `try { ... } catch (e) {
console.warn(...) }`, and `res.status(201).json({ user, token })`
follows unconditionally.  `persistOk` is whether the INSERT succeeds;
the attempted row and the response are both returned. -/
def registerTokenPersistence (userId : Nat) (token : String)
    (sha256hex : String → String) (now : Int) (persistOk : Bool) :
    IssueResponse × Option LedgerInsert :=
  let row : LedgerInsert :=
    { userId := some userId
      tokenHash := sha256hex token
      tokenType := "access"
      expiresAt := now + 24 * 60 * 60 * 1000 }
  ({ status := 201, token := some token, warned := !persistOk },
    if persistOk then some row else none)

/-- Token-persistence tail of `POST /api/login` (server.js lines
891-906): identical shape, responding `res.json({ user, token })`
(status 200) unconditionally after the guarded INSERT. -/
def loginTokenPersistence (userId : Nat) (token : String)
    (sha256hex : String → String) (now : Int) (persistOk : Bool) :
    IssueResponse × Option LedgerInsert :=
  let row : LedgerInsert :=
    { userId := some userId
      tokenHash := sha256hex token
      tokenType := "access"
      expiresAt := now + 24 * 60 * 60 * 1000 }
  ({ status := 200, token := some token, warned := !persistOk },
    if persistOk then some row else none)

/-- Token-persistence tail of `POST /api/admin/login` (server.js lines
964-975): `user_id` NULL, type `admin`, 8h expiry, again responding
with the token unconditionally after the guarded INSERT. -/
def adminTokenPersistence (token : String) (sha256hex : String → String)
    (now : Int) (persistOk : Bool) : IssueResponse × Option LedgerInsert :=
  let row : LedgerInsert :=
    { userId := none
      tokenHash := sha256hex token
      tokenType := "admin"
      expiresAt := now + 8 * 60 * 60 * 1000 }
  ({ status := 200, token := some token, warned := !persistOk },
    if persistOk then some row else none)

/-!
Projections of one handler step, used throughout the theorems below.
-/

/-- Connection state after one handler step. -/
def connAfter (conn : Conn) (srv : ServerState) (msg : String)
    (parsed : Option Report) (now : String) : Conn :=
  (handleMessage conn srv msg parsed now).1

/-- Server globals after one handler step. -/
def stateAfter (conn : Conn) (srv : ServerState) (msg : String)
    (parsed : Option Report) (now : String) : ServerState :=
  (handleMessage conn srv msg parsed now).2.1

/-- Effects issued by one handler step. -/
def effectsAfter (conn : Conn) (srv : ServerState) (msg : String)
    (parsed : Option Report) (now : String) : List Effect :=
  (handleMessage conn srv msg parsed now).2.2

/-- On a `BROWSER` connection, a non-`ROLE:`/non-`USER:` message is
handled entirely by the browser branch. -/
theorem handleMessage_browser_eq (conn : Conn) (srv : ServerState) (msg : String)
    (parsed : Option Report) (now : String) (hrole : conn.role = "BROWSER")
    (hR : jsStartsWith msg "ROLE:" = false) (hU : jsStartsWith msg "USER:" = false) :
    handleMessage conn srv msg parsed now
      = (conn, (handleBrowser srv msg).1, (handleBrowser srv msg).2) := by
  simp [handleMessage, hrole, hR, hU]

/-- On an `ESP32` connection, a non-`ROLE:`/non-`USER:` message is
handled entirely by the device branch. -/
theorem handleMessage_esp32_eq (conn : Conn) (srv : ServerState) (msg : String)
    (parsed : Option Report) (now : String) (hrole : conn.role = "ESP32")
    (hR : jsStartsWith msg "ROLE:" = false) (hU : jsStartsWith msg "USER:" = false) :
    handleMessage conn srv msg parsed now
      = (conn, (handleEsp32 srv parsed now).1, (handleEsp32 srv parsed now).2) := by
  simp [handleMessage, hrole, hR, hU]

/-!
Claim C1.
-/

/-- C1, counterexample: the claim says every field of the SystemState
snapshot is unchanged by any message handled on an Observer (BROWSER)
connection, including the command vocabulary.  In fact a browser `OPEN`
command overwrites `systemState.window` (server.js line 526): starting
from the initial state with `window = "CLOSE"`, handling `OPEN` on a
BROWSER connection leaves `window = "OPEN"`. -/
theorem C1_counterexample :
    (stateAfter ⟨"BROWSER", none⟩ initialServerState "OPEN" none "T").systemState.window
        = JsVal.str "OPEN" ∧
    initialServerState.systemState.window = JsVal.str "CLOSE" := by
  decide

/-- C1, amended: on a connection whose role is BROWSER (Observer), every
handled message leaves `temperature`, `light`, `mode` and `timestamp`
unchanged; a message outside the command vocabulary (including `ROLE:`
and `USER:` directives) leaves the whole server state unchanged, but a
vocabulary command `OPEN`/`CLOSE`/`AUTO` overwrites `window` with the
command text. -/
theorem C1_amended_observer_state (conn : Conn) (srv : ServerState) (msg : String)
    (parsed : Option Report) (now : String) (hrole : conn.role = "BROWSER") :
    (stateAfter conn srv msg parsed now).systemState.temperature
        = srv.systemState.temperature ∧
    (stateAfter conn srv msg parsed now).systemState.light = srv.systemState.light ∧
    (stateAfter conn srv msg parsed now).systemState.mode = srv.systemState.mode ∧
    (stateAfter conn srv msg parsed now).systemState.timestamp
        = srv.systemState.timestamp ∧
    ((msg = "OPEN" ∨ msg = "CLOSE" ∨ msg = "AUTO") →
      (stateAfter conn srv msg parsed now).systemState.window = JsVal.str msg) ∧
    (¬(msg = "OPEN" ∨ msg = "CLOSE" ∨ msg = "AUTO") →
      stateAfter conn srv msg parsed now = srv) := by
  by_cases hR : jsStartsWith msg "ROLE:" = true
  · refine ⟨?_, ?_, ?_, ?_, ?_, ?_⟩ <;>
      simp [stateAfter, handleMessage, hR]
    rintro (rfl | rfl | rfl) <;> exact absurd hR (by decide)
  · rw [Bool.not_eq_true] at hR
    by_cases hU : jsStartsWith msg "USER:" = true
    · refine ⟨?_, ?_, ?_, ?_, ?_, ?_⟩ <;>
        simp [stateAfter, handleMessage, hR, hU]
      rintro (rfl | rfl | rfl) <;> exact absurd hU (by decide)
    · rw [Bool.not_eq_true] at hU
      by_cases hv : msg = "OPEN" ∨ msg = "CLOSE" ∨ msg = "AUTO"
      · refine ⟨?_, ?_, ?_, ?_, fun _ => ?_, fun hnv => absurd hv hnv⟩ <;>
          simp [stateAfter, handleMessage_browser_eq conn srv msg parsed now hrole hR hU,
            handleBrowser, hv]
      · refine ⟨?_, ?_, ?_, ?_, fun h => absurd h hv, fun _ => ?_⟩ <;>
          simp [stateAfter, handleMessage_browser_eq conn srv msg parsed now hrole hR hU,
            handleBrowser, hv]

/-- C1 witness: the amended theorem applied at a concrete observer
connection and an arbitrary non-command message. -/
theorem C1_amended_witness :
    (⟨"BROWSER", none⟩ : Conn).role = "BROWSER" ∧
    stateAfter ⟨"BROWSER", none⟩ initialServerState "hello" none "T"
      = initialServerState :=
  ⟨rfl,
    (C1_amended_observer_state ⟨"BROWSER", none⟩ initialServerState "hello" none "T"
        rfl).2.2.2.2.2 (by decide)⟩

/-!
Claim C2.
-/

/-- C2, counterexample: the claim says a second `ROLE:` message on an
already-classified connection is rejected with a ProtocolError and the
role never changes.  In fact the handler (server.js lines 441-445)
unconditionally overwrites `ws.role`: on a connection already classified
`ESP32` (Device), a later `ROLE:BROWSER` message silently changes the
role to `BROWSER` with no error effect of any kind. -/
theorem C2_counterexample :
    (connAfter ⟨"ESP32", none⟩ initialServerState "ROLE:BROWSER" none "T").role
        = "BROWSER" ∧
    effectsAfter ⟨"ESP32", none⟩ initialServerState "ROLE:BROWSER" none "T" = [] := by
  decide

/-- C2, amended: every message starting with `ROLE:` — first or later,
recognized role token or not — overwrites the connection role with the
text after the first colon (JavaScript `msg.split(":")[1]`), leaves the
server state untouched, and issues no effect; nothing is ever rejected. -/
theorem C2_amended_role_overwrite (conn : Conn) (srv : ServerState) (msg : String)
    (parsed : Option Report) (now : String) (h : jsStartsWith msg "ROLE:" = true) :
    connAfter conn srv msg parsed now
        = { conn with role := (splitSecond ':' msg).getD "" } ∧
    stateAfter conn srv msg parsed now = srv ∧
    effectsAfter conn srv msg parsed now = [] := by
  refine ⟨?_, ?_, ?_⟩ <;> simp [connAfter, stateAfter, effectsAfter, handleMessage, h]

/-- C2 witness: a connection already classified `BROWSER` is reclassified
to the unrecognized token `XYZ` by a later `ROLE:XYZ` message. -/
theorem C2_amended_witness :
    jsStartsWith "ROLE:XYZ" "ROLE:" = true ∧
    connAfter ⟨"BROWSER", some "7"⟩ initialServerState "ROLE:XYZ" none "T"
      = { role := "XYZ", userId := some "7" } := by
  refine ⟨by decide, ?_⟩
  have h := (C2_amended_role_overwrite ⟨"BROWSER", some "7"⟩ initialServerState
    "ROLE:XYZ" none "T" (by decide)).1
  rw [h]
  decide

/-!
Claim C3.
-/

/-- C3: `authenticateToken` checks a presented credential in the fixed
precedence order Malformed, Unrecognized, Revoked, Expired.  A failed
`jwt.verify` (malformed signature) is reported as 403 Invalid token
before the ledger is consulted at all (for every `dbOk` and every ledger
content); with a valid signature, a missing ledger row gives 401 Token
not recognized; a ledger row with `revoked = true` gives 401 Token
revoked with no condition whatsoever on its expiry or the current time;
and only a non-revoked row can give 401 Token expired. -/
theorem C3_validate_precedence (token : String) (sha256hex : String → String)
    (ledger : Ledger) (now : Int) :
    (∀ dbOk : Bool,
      checkToken token false sha256hex dbOk ledger now
        = .reject 403 "Invalid token") ∧
    (findTokenRow ledger (sha256hex token) = none →
      checkToken token true sha256hex true ledger now
        = .reject 401 "Token not recognized") ∧
    (∀ row : TokenRow, findTokenRow ledger (sha256hex token) = some row →
      row.revoked = true →
      checkToken token true sha256hex true ledger now
        = .reject 401 "Token revoked") ∧
    (∀ row : TokenRow, findTokenRow ledger (sha256hex token) = some row →
      row.revoked = false → ∀ t : Int, row.expiresAt = some t → t < now →
      checkToken token true sha256hex true ledger now
        = .reject 401 "Token expired") := by
  refine ⟨fun dbOk => by simp [checkToken], fun hnone => by simp [checkToken, hnone],
    fun row hrow hrev => by simp [checkToken, hrow, hrev],
    fun row hrow hrev t ht hlt => by simp [checkToken, hrow, hrev, ht, hlt]⟩

/-- C3 witness: a ledger row that is revoked but far from expired is
rejected as revoked, with a valid signature and `now` well before the
expiry. -/
theorem C3_validate_precedence_witness :
    checkToken "tok" true (fun s => s) true [("tok", ⟨1, true, some 99999⟩)] 5
      = .reject 401 "Token revoked" :=
  (C3_validate_precedence "tok" (fun s => s) [("tok", ⟨1, true, some 99999⟩)]
      5).2.2.1 ⟨1, true, some 99999⟩ (by decide) (by decide)

/-!
Claim C4.
-/

/-- C4, counterexample: the claim says that when persisting the token
hash to the ledger fails, the raw token is not returned and the call
fails with an IssuanceError.  In fact both issuing routes wrap the
INSERT in `try { ... } catch (e) { console.warn(...) }` (server.js lines
839-848, 892-901) and respond with the token unconditionally: with a
failed INSERT, register still answers 201 with the token in the body,
and login still answers 200 with the token in the body. -/
theorem C4_counterexample :
    (registerTokenPersistence 1 "tok" (fun s => s) 0 false).1
        = { status := 201, token := some "tok", warned := true } ∧
    (loginTokenPersistence 1 "tok" (fun s => s) 0 false).1
        = { status := 200, token := some "tok", warned := true } := by
  decide

/-- C4, amended: ledger persistence at issuance is best-effort, not a
single logical unit with the response.  For every issuing route, when
the INSERT fails the failure is only logged as a warning (`warned`),
nothing reaches the ledger, and the raw token is still returned to the
caller with the success status (201 for register, 200 for login and
admin login). -/
theorem C4_amended_best_effort (userId : Nat) (token : String)
    (sha256hex : String → String) (now : Int) :
    (registerTokenPersistence userId token sha256hex now false).1
        = { status := 201, token := some token, warned := true } ∧
    (registerTokenPersistence userId token sha256hex now false).2 = none ∧
    (loginTokenPersistence userId token sha256hex now false).1
        = { status := 200, token := some token, warned := true } ∧
    (loginTokenPersistence userId token sha256hex now false).2 = none ∧
    (adminTokenPersistence token sha256hex now false).1
        = { status := 200, token := some token, warned := true } ∧
    (adminTokenPersistence token sha256hex now false).2 = none := by
  refine ⟨rfl, rfl, rfl, rfl, rfl, rfl⟩

/-!
Claim C5.
-/

/-- Telegram count distributes over effect-list concatenation. -/
theorem countTelegrams_append (a b : List Effect) :
    countTelegrams (a ++ b) = countTelegrams a + countTelegrams b := by
  simp [countTelegrams, List.filter_append]

/-- A parse outcome whose `window` projection is `some w` comes from an
actual report with that window value. -/
theorem parsed_window_eq {p : Option Report} {w : JsVal}
    (h : p.map Report.window = some w) : ∃ r, p = some r ∧ r.window = w := by
  cases p with
  | none => simp at h
  | some r => exact ⟨r, rfl, by simpa using h⟩

/-- One accepted report stating `window = "OPEN"` leaves
`previousWindowState = "OPEN"` and emits a Telegram alert iff the
previous window state was not already `"OPEN"`. -/
theorem handleEsp32_open_step (srv : ServerState) (r : Report) (now : String)
    (hw : r.window = JsVal.str "OPEN") :
    (handleEsp32 srv (some r) now).1.previousWindowState = JsVal.str "OPEN" ∧
    countTelegrams (handleEsp32 srv (some r) now).2
      = if srv.previousWindowState = JsVal.str "OPEN" then 0 else 1 := by
  by_cases hp : srv.previousWindowState = JsVal.str "OPEN"
  · simp [handleEsp32, countTelegrams, hw, hp]
  · have hp' : ¬(JsVal.str "OPEN" = srv.previousWindowState) := fun h => hp h.symm
    simp [handleEsp32, countTelegrams, hw, hp, hp']

/-- Once `previousWindowState` is `"OPEN"`, any run of accepted reports
all stating `"OPEN"` emits no further Telegram alert. -/
theorem handleMessages_open_zero (conn : Conn) (hrole : conn.role = "ESP32")
    (frames : List Frame)
    (hall : ∀ f ∈ frames, jsStartsWith f.msg "ROLE:" = false ∧
      jsStartsWith f.msg "USER:" = false ∧
      f.parsed.map Report.window = some (JsVal.str "OPEN")) :
    ∀ srv : ServerState, srv.previousWindowState = JsVal.str "OPEN" →
      countTelegrams (handleMessages conn srv frames).2.2 = 0 := by
  induction frames with
  | nil => intro srv _; simp [handleMessages, countTelegrams]
  | cons f rest ih =>
    intro srv hprev
    obtain ⟨hR, hU, hw⟩ := hall f (by simp)
    obtain ⟨r, hp, hrw⟩ := parsed_window_eq hw
    have hstep := handleMessage_esp32_eq conn srv f.msg f.parsed f.now hrole hR hU
    simp only [handleMessages, hstep]
    rw [hp, countTelegrams_append]
    have hopen := handleEsp32_open_step srv r f.now hrw
    rw [hopen.2, if_pos hprev,
      ih (fun g hg => hall g (by simp [hg])) (handleEsp32 srv (some r) f.now).1 hopen.1]

/-- C5: the Telegram notification fires once per distinct window
transition, not once per report.  On a Device (ESP32) connection with
`previousWindowState = "CLOSE"`, handling five frames that all parse to
reports stating `window = "OPEN"` emits exactly one Telegram alert. -/
theorem C5_single_notification (conn : Conn) (srv : ServerState)
    (frames : List Frame) (hrole : conn.role = "ESP32")
    (hprev : srv.previousWindowState = JsVal.str "CLOSE")
    (hlen : frames.length = 5)
    (hall : ∀ f ∈ frames, jsStartsWith f.msg "ROLE:" = false ∧
      jsStartsWith f.msg "USER:" = false ∧
      f.parsed.map Report.window = some (JsVal.str "OPEN")) :
    countTelegrams (handleMessages conn srv frames).2.2 = 1 := by
  cases frames with
  | nil => simp at hlen
  | cons f rest =>
    obtain ⟨hR, hU, hw⟩ := hall f (by simp)
    obtain ⟨r, hp, hrw⟩ := parsed_window_eq hw
    have hstep := handleMessage_esp32_eq conn srv f.msg f.parsed f.now hrole hR hU
    simp only [handleMessages, hstep]
    rw [hp, countTelegrams_append]
    have hopen := handleEsp32_open_step srv r f.now hrw
    rw [hopen.2, if_neg (by rw [hprev]; decide),
      handleMessages_open_zero conn hrole rest (fun g hg => hall g (by simp [hg]))
        (handleEsp32 srv (some r) f.now).1 hopen.1]

/-- C5 witness: a fresh ESP32 connection, the initial server state, and
five identical `OPEN` reports produce exactly one Telegram alert. -/
theorem C5_single_notification_witness :
    countTelegrams (handleMessages ⟨"ESP32", none⟩ initialServerState
      (List.replicate 5 ⟨"x", some ⟨JsVal.num 26, JsVal.num 10, JsVal.str "OPEN",
        JsVal.str "AUTO", JsVal.undefined⟩, "T"⟩)).2.2 = 1 :=
  C5_single_notification ⟨"ESP32", none⟩ initialServerState
    (List.replicate 5 ⟨"x", some ⟨JsVal.num 26, JsVal.num 10, JsVal.str "OPEN",
      JsVal.str "AUTO", JsVal.undefined⟩, "T"⟩) rfl rfl (by decide) (by decide)

/-!
Claim C6.
-/

/-- C6, counterexample: the claim says a device report with non-numeric
temperature or light or a window outside the enum is rejected without
mutating state or broadcasting.  In fact the ESP32 branch validates
nothing beyond `JSON.parse` succeeding: a report with string temperature
`"abc"`, null light, and window `"BANANA"` is accepted, every state
field is overwritten with those values, and the snapshot is broadcast. -/
theorem C6_counterexample :
    (stateAfter ⟨"ESP32", none⟩ initialServerState "j"
        (some ⟨JsVal.str "abc", JsVal.null, JsVal.str "BANANA", JsVal.undefined,
          JsVal.undefined⟩) "T").systemState.temperature = JsVal.str "abc" ∧
    (stateAfter ⟨"ESP32", none⟩ initialServerState "j"
        (some ⟨JsVal.str "abc", JsVal.null, JsVal.str "BANANA", JsVal.undefined,
          JsVal.undefined⟩) "T").systemState.window = JsVal.str "BANANA" ∧
    Effect.broadcast (stateAfter ⟨"ESP32", none⟩ initialServerState "j"
        (some ⟨JsVal.str "abc", JsVal.null, JsVal.str "BANANA", JsVal.undefined,
          JsVal.undefined⟩) "T").systemState
      ∈ effectsAfter ⟨"ESP32", none⟩ initialServerState "j"
        (some ⟨JsVal.str "abc", JsVal.null, JsVal.str "BANANA", JsVal.undefined,
          JsVal.undefined⟩) "T" := by
  decide

/-- C6, amended: the only malformed-report guard is `JSON.parse` itself.
On a Device (ESP32) connection, a frame whose text fails to parse
mutates nothing and emits no effect, while every frame that parses is
accepted unconditionally — its temperature and window values (of
whatever type) overwrite the state and the new snapshot is broadcast. -/
theorem C6_amended_parse_only_guard (conn : Conn) (srv : ServerState) (msg : String)
    (parsed : Option Report) (now : String) (hrole : conn.role = "ESP32")
    (hR : jsStartsWith msg "ROLE:" = false)
    (hU : jsStartsWith msg "USER:" = false) :
    (parsed = none → stateAfter conn srv msg parsed now = srv ∧
      effectsAfter conn srv msg parsed now = []) ∧
    (∀ r : Report, parsed = some r →
      (stateAfter conn srv msg parsed now).systemState.temperature = r.temperature ∧
      (stateAfter conn srv msg parsed now).systemState.window = r.window ∧
      Effect.broadcast (stateAfter conn srv msg parsed now).systemState
        ∈ effectsAfter conn srv msg parsed now) := by
  have hstep := handleMessage_esp32_eq conn srv msg parsed now hrole hR hU
  refine ⟨fun hnone => ?_, fun r hr => ?_⟩
  · subst hnone
    simp [stateAfter, effectsAfter, hstep, handleEsp32]
  · subst hr
    by_cases hw : r.window = srv.previousWindowState <;>
      simp [stateAfter, effectsAfter, hstep, handleEsp32, hw]

/-- C6 witness: a frame that fails to parse leaves the initial state
untouched with no effects. -/
theorem C6_amended_witness :
    stateAfter ⟨"ESP32", none⟩ initialServerState "not json" none "T"
        = initialServerState ∧
    effectsAfter ⟨"ESP32", none⟩ initialServerState "not json" none "T" = [] :=
  (C6_amended_parse_only_guard ⟨"ESP32", none⟩ initialServerState "not json" none "T"
      rfl (by decide) (by decide)).1 rfl

/-!
Claim C7.
-/

/-- C7, counterexample: the claim says commands are matched against
`{Open, Close, Auto}` with at most a single leading/trailing whitespace
strip, and that an observer sending `Open` makes every Device connection
receive the literal `Open`.  In fact the match is against the uppercase
tokens with no stripping: with one open ESP32 client connected, a
BROWSER message `Open` is delivered to no one, and so is ` OPEN`. -/
theorem C7_counterexample :
    espDeliveries [⟨"ESP32", true⟩]
        (effectsAfter ⟨"BROWSER", none⟩ initialServerState "Open" none "T") = [] ∧
    espDeliveries [⟨"ESP32", true⟩]
        (effectsAfter ⟨"BROWSER", none⟩ initialServerState " OPEN" none "T") = [] := by
  decide

/-- C7, amended: the observer command vocabulary is the exact uppercase
tokens `OPEN`, `CLOSE`, `AUTO` with no whitespace stripping.  Such a
message from a BROWSER connection is sent verbatim to exactly the
clients whose transport is open and whose role is `ESP32` — in
particular every such client receives the literal message text — and
any other payload is delivered to no device and raises no error. -/
theorem C7_amended_forwarding (conn : Conn) (srv : ServerState) (msg : String)
    (parsed : Option Report) (now : String) (clients : List Client)
    (hrole : conn.role = "BROWSER") :
    ((msg = "OPEN" ∨ msg = "CLOSE" ∨ msg = "AUTO") →
      espDeliveries clients (effectsAfter conn srv msg parsed now)
        = clients.filterMap (fun c =>
            if c.readyStateOpen && c.role == "ESP32" then some (c, msg) else none)) ∧
    ((msg = "OPEN" ∨ msg = "CLOSE" ∨ msg = "AUTO") →
      ∀ c ∈ clients, c.readyStateOpen = true → c.role = "ESP32" →
        (c, msg) ∈ espDeliveries clients (effectsAfter conn srv msg parsed now)) ∧
    (¬(msg = "OPEN" ∨ msg = "CLOSE" ∨ msg = "AUTO") →
      espDeliveries clients (effectsAfter conn srv msg parsed now) = []) := by
  have hkey : (msg = "OPEN" ∨ msg = "CLOSE" ∨ msg = "AUTO") →
      espDeliveries clients (effectsAfter conn srv msg parsed now)
        = clients.filterMap (fun c =>
            if c.readyStateOpen && c.role == "ESP32" then some (c, msg) else none) := by
    rintro (rfl | rfl | rfl)
    · simp [effectsAfter, handleMessage_browser_eq conn srv "OPEN" parsed now hrole
        (by decide) (by decide), handleBrowser, espDeliveries, sendToESP32]
    · simp [effectsAfter, handleMessage_browser_eq conn srv "CLOSE" parsed now hrole
        (by decide) (by decide), handleBrowser, espDeliveries, sendToESP32]
    · simp [effectsAfter, handleMessage_browser_eq conn srv "AUTO" parsed now hrole
        (by decide) (by decide), handleBrowser, espDeliveries, sendToESP32]
  refine ⟨hkey, fun hv c hc hopen hrc => ?_, fun hnv => ?_⟩
  · rw [hkey hv, List.mem_filterMap]
    exact ⟨c, hc, by simp [hopen, hrc]⟩
  · by_cases hR : jsStartsWith msg "ROLE:" = true
    · simp [effectsAfter, handleMessage, hR, espDeliveries]
    · rw [Bool.not_eq_true] at hR
      by_cases hU : jsStartsWith msg "USER:" = true
      · simp [effectsAfter, handleMessage, hR, hU, espDeliveries]
      · rw [Bool.not_eq_true] at hU
        simp [effectsAfter, handleMessage_browser_eq conn srv msg parsed now hrole hR hU,
          handleBrowser, hnv, espDeliveries]

/-- C7 witness: with two ESP32 clients (one open, one closed), a browser
`OPEN` is delivered exactly to the open one, carrying the literal text. -/
theorem C7_amended_witness :
    espDeliveries [⟨"ESP32", true⟩, ⟨"ESP32", false⟩, ⟨"BROWSER", true⟩]
        (effectsAfter ⟨"BROWSER", none⟩ initialServerState "OPEN" none "T")
      = [(⟨"ESP32", true⟩, "OPEN")] := by
  rw [(C7_amended_forwarding ⟨"BROWSER", none⟩ initialServerState "OPEN" none "T"
    [⟨"ESP32", true⟩, ⟨"ESP32", false⟩, ⟨"BROWSER", true⟩] rfl).1 (Or.inl rfl)]
  decide

/-!
Claim C8.
-/

/-- C8, counterexample: the claim says identity binding on a connection
whose role is Unknown or Device fails with a ProtocolError and attaches
no identity.  In fact the `USER:` branch (server.js lines 450-454) runs
before any role check: on a connection classified `ESP32` (Device), the
message `USER:42` silently sets `userId` to `42` with no error effect. -/
theorem C8_counterexample :
    (connAfter ⟨"ESP32", none⟩ initialServerState "USER:42" none "T").userId
        = some "42" ∧
    effectsAfter ⟨"ESP32", none⟩ initialServerState "USER:42" none "T" = [] := by
  decide

/-- C8, amended: a `USER:` message binds the identity on every
connection regardless of its role — `userId` is overwritten with the
text after the first colon, the server state is untouched, and no
effect (in particular no error) is issued. -/
theorem C8_amended_user_binding (conn : Conn) (srv : ServerState) (msg : String)
    (parsed : Option Report) (now : String)
    (hR : jsStartsWith msg "ROLE:" = false)
    (hU : jsStartsWith msg "USER:" = true) :
    connAfter conn srv msg parsed now
        = { conn with userId := some ((splitSecond ':' msg).getD "") } ∧
    stateAfter conn srv msg parsed now = srv ∧
    effectsAfter conn srv msg parsed now = [] := by
  refine ⟨?_, ?_, ?_⟩ <;>
    simp [connAfter, stateAfter, effectsAfter, handleMessage, hR, hU]

/-- C8 witness: a Device (ESP32) connection gets the identity `42`
attached by `USER:42`, with state and effects untouched. -/
theorem C8_amended_witness :
    jsStartsWith "USER:42" "USER:" = true ∧
    connAfter ⟨"ESP32", none⟩ initialServerState "USER:42" none "T"
      = { role := "ESP32", userId := some "42" } := by
  refine ⟨by decide, ?_⟩
  have h := (C8_amended_user_binding ⟨"ESP32", none⟩ initialServerState "USER:42"
    none "T" (by decide) (by decide)).1
  rw [h]
  decide

/-!
Claim C9.
-/

/-- C9: the accepted snapshot is timestamped with the server clock read
at acceptance (`new Date().toISOString()`, server.js line 467).  The
resulting `timestamp` equals `some now` for every report `r`, whatever
timestamp-like field `r` carries — the client value is never consulted. -/
theorem C9_server_timestamp (conn : Conn) (srv : ServerState) (msg : String)
    (r : Report) (now : String) (hrole : conn.role = "ESP32")
    (hR : jsStartsWith msg "ROLE:" = false)
    (hU : jsStartsWith msg "USER:" = false) :
    (stateAfter conn srv msg (some r) now).systemState.timestamp = some now := by
  have hstep := handleMessage_esp32_eq conn srv msg (some r) now hrole hR hU
  by_cases hw : r.window = srv.previousWindowState <;>
    simp [stateAfter, hstep, handleEsp32, hw]

/-- C9 witness: a report carrying the client timestamp `1999-01-01` is
stamped with the server acceptance time `2026-10-11` instead. -/
theorem C9_server_timestamp_witness :
    (stateAfter ⟨"ESP32", none⟩ initialServerState "j"
        (some ⟨JsVal.num 26, JsVal.num 10, JsVal.str "OPEN", JsVal.str "AUTO",
          JsVal.str "1999-01-01"⟩) "2026-10-11").systemState.timestamp
      = some "2026-10-11" :=
  C9_server_timestamp ⟨"ESP32", none⟩ initialServerState "j"
    ⟨JsVal.num 26, JsVal.num 10, JsVal.str "OPEN", JsVal.str "AUTO",
      JsVal.str "1999-01-01"⟩ "2026-10-11" rfl (by decide) (by decide)

/-!
Claim C10.
-/

/-- C10: `systemState.mode = data.mode || "AUTO"` (server.js line 466):
for every accepted report whose `mode` field is absent or otherwise
falsy, the snapshot records the default `"AUTO"`. -/
theorem C10_mode_default (conn : Conn) (srv : ServerState) (msg : String)
    (r : Report) (now : String) (hrole : conn.role = "ESP32")
    (hR : jsStartsWith msg "ROLE:" = false)
    (hU : jsStartsWith msg "USER:" = false)
    (hmode : jsFalsy r.mode = true) :
    (stateAfter conn srv msg (some r) now).systemState.mode = JsVal.str "AUTO" := by
  have hstep := handleMessage_esp32_eq conn srv msg (some r) now hrole hR hU
  by_cases hw : r.window = srv.previousWindowState <;>
    simp [stateAfter, hstep, handleEsp32, hw, hmode]

/-- C10 witness: a report with no `mode` property at all yields a
snapshot in `AUTO` mode. -/
theorem C10_mode_default_witness :
    (stateAfter ⟨"ESP32", none⟩ initialServerState "j"
        (some ⟨JsVal.num 26, JsVal.num 10, JsVal.str "OPEN", JsVal.undefined,
          JsVal.undefined⟩) "T").systemState.mode = JsVal.str "AUTO" :=
  C10_mode_default ⟨"ESP32", none⟩ initialServerState "j"
    ⟨JsVal.num 26, JsVal.num 10, JsVal.str "OPEN", JsVal.undefined, JsVal.undefined⟩
    "T" rfl (by decide) (by decide) (by decide)
